import Mathlib

/-
Shallow embedding of src/src/grafana_service.ts (grafana-datasource-kit).

The embedding models the pagination engine (queryByMetric), the streaming
generator (DatasourceStream._query), the backpressure read closure of
DatasourceStream.query, the error classifier inside queryGrafana, the header
construction of queryGrafana, and the endpoint derivation getGrafanaUrl.
Transport is modelled as a pure stub mapping the requested offset to the
page the backend returns at that offset; the request counter and the list
of requested offsets are ghost instrumentation recording the transport
calls the source would make.
-/

namespace GrafanaKit

/-- Row of a time-series page: one numeric tuple, as in values of
getResults, which the source types as pairs of time and value. -/
abbrev Row := Int × Int

/-- CHUNK_SIZE constant of the source. -/
def CHUNK_SIZE : Nat := 50000

/-- TimeSeriesChunk of the source: column names plus the rows of one page. -/
structure TimeSeriesChunk where
  columns : List String
  values  : List Row
deriving DecidableEq

/-- TimeSeriesPoint of the source. The read closure constructs each point
as TimeSeriesPoint(chunk.columns, chunk.values), passing the whole values
array of the chunk, so the field here is a list of rows. -/
structure TimeSeriesPoint where
  columns : List String
  values  : List Row
deriving DecidableEq

/-- The kinds of the error classes of the source: BadRange,
GrafanaUnavailable and DatasourceUnavailable extend DataKitError, and the
remaining throw sites use the plain Error class, modelled as generic. -/
inductive ErrKind
  | badRange
  | grafanaUnavailable
  | datasourceUnavailable
  | generic
deriving DecidableEq

/-- DataKitError of the source: message plus two optional context fields.
Plain Error throws are represented with kind generic and both context
fields none. -/
structure DataKitError where
  kind : ErrKind
  message : String
  datasourceType : Option String
  datasourceUrl  : Option String
deriving DecidableEq

/-- The BadRange error built by both entry points for a reversed range. -/
def badRangeError (dsType url : String) (f t : Int) : DataKitError :=
  ⟨ErrKind.badRange,
   "Data-kit got wrong range: from " ++ toString f ++ " > to " ++ toString t,
   some dsType, some url⟩

/-- State threaded through the paging loop of queryByMetric: the data
object of the source (values and columns) plus ghost instrumentation: the
number of transport requests made and the offsets they were made at. -/
structure LoopState where
  values  : List Row
  columns : List String
  reqs    : Nat
  offsets : List Nat
deriving DecidableEq

/-- The data object before the loop of queryByMetric starts. -/
def initLoopState : LoopState := ⟨[], [], 0, []⟩

/-- The while loop of queryByMetric. Each iteration requests the page at
offset data.values.length, appends its rows, overwrites columns with the
columns of that page, and stops when the page is short. Fuel makes the
loop total; the Bool records whether the loop terminated by a short page
within the given fuel. -/
def queryLoop (backend : Nat → TimeSeriesChunk) : Nat → LoopState → LoopState × Bool
  | 0, st => (st, false)
  | fuel + 1, st =>
    let off := st.values.length
    let chunk := backend off
    let st' : LoopState :=
      ⟨st.values ++ chunk.values, chunk.columns, st.reqs + 1, st.offsets ++ [off]⟩
    if chunk.values.length < CHUNK_SIZE then (st', true)
    else queryLoop backend fuel st'

/-- Outcome of queryByMetric: the result or the thrown error, the number
of transport requests made, and whether console.warn fired. -/
structure AggOutcome where
  outcome  : Except DataKitError (LoopState × Bool)
  requests : Nat
  warned   : Bool

/-- queryByMetric of the source: throws BadRange when the range is
reversed (before any transport request), warns when the bounds are equal,
then runs the paging loop from the empty data object. -/
def queryByMetric (dsType url : String) (backend : Nat → TimeSeriesChunk)
    (f t : Int) (fuel : Nat) : AggOutcome :=
  if f > t then
    { outcome := Except.error (badRangeError dsType url f t)
      requests := 0
      warned := false }
  else
    let r := queryLoop backend fuel initLoopState
    { outcome := Except.ok r, requests := r.1.reqs, warned := f == t }

/-- The generator loop of DatasourceStream._query. Faithful to the source:
returnedValuesLength is bound to 0 before the loop and never reassigned
inside it, so it is a plain parameter here and every request is made at
the same offset. Returns the yielded chunks, the offsets requested, and
whether the loop ended by seeing a short page within the fuel. -/
def streamLoop (backend : Nat → TimeSeriesChunk) (returnedValuesLength : Nat) :
    Nat → List TimeSeriesChunk × List Nat × Bool
  | 0 => ([], [], false)
  | fuel + 1 =>
    let chunk := backend returnedValuesLength
    if chunk.values.length < CHUNK_SIZE then
      ([chunk], [returnedValuesLength], true)
    else
      let r := streamLoop backend returnedValuesLength fuel
      (chunk :: r.1, returnedValuesLength :: r.2.1, r.2.2)

/-- State of the suspended generator between resumptions: running means the
next resumption performs a transport request and yields a chunk; finished
means the generator has returned and next gives an undefined value. -/
inductive ProdState
  | running
  | finished
deriving DecidableEq

/-- One resumption of the generator of _query. A running generator
requests the page at offset 0 (returnedValuesLength never advances in the
source), yields it, and is finished exactly when that page was short. A
finished generator yields nothing. -/
def producerNext (backend : Nat → TimeSeriesChunk) :
    ProdState → Option (TimeSeriesChunk × ProdState)
  | ProdState.finished => none
  | ProdState.running =>
    let chunk := backend 0
    some (chunk,
      if chunk.values.length < CHUNK_SIZE then ProdState.finished
      else ProdState.running)

/-- State owned by one DatasourceStream between read calls: the point
buffer currentChunk, the generator state, and a ghost count of transport
requests made so far. -/
structure ReadState where
  currentChunk : List TimeSeriesPoint
  prod : ProdState
  requests : Nat
deriving DecidableEq

/-- The adapter state right after DatasourceStream.query returns. -/
def initReadState : ReadState := ⟨[], ProdState.running, 0⟩

/-- The delivery loop at the end of the read closure: size iterations of
self.push(this.currentChunk.shift()). Each shift removes the front point;
a shift on an empty buffer yields undefined, modelled as none. -/
def deliver (size : Nat) (st : ReadState) :
    ReadState × List (Option TimeSeriesPoint) :=
  ({ st with currentChunk := st.currentChunk.drop size },
   (List.range size).map (fun i => st.currentChunk.get? i))

/-- One invocation of the read closure of DatasourceStream.query with the
given size. When the buffer holds fewer points than size, the generator is
resumed once; the source then iterates the values of the yielded chunk and
calls this.currentChunk.concat on each, but Array.concat returns a fresh
array and the result is discarded, so the buffer is left unchanged by the
refill. Resuming a finished generator gives an undefined chunk and the
access chunk.values throws, modelled as none. -/
def readStep (backend : Nat → TimeSeriesChunk) (size : Nat) (st : ReadState) :
    Option (ReadState × List (Option TimeSeriesPoint)) :=
  if st.currentChunk.length < size then
    match producerNext backend st.prod with
    | none => none
    | some (_, prod') =>
      some (deliver size { st with prod := prod', requests := st.requests + 1 })
  else
    some (deliver size st)

/-- A sequence of read calls with the given sizes, returning the final
adapter state. -/
def readRun (backend : Nat → TimeSeriesChunk) :
    List Nat → ReadState → Option ReadState
  | [], st => some st
  | size :: rest, st =>
    match readStep backend size st with
    | none => none
    | some (st', _) => readRun backend rest st'

/-- DatasourceStream.query: throws BadRange when the range is reversed,
warns when the bounds are equal, and otherwise hands back the fresh
adapter state; the generator is lazy, so no transport request has been
made yet, as recorded by the requests field of initReadState. -/
def streamQuery (dsType url : String) (f t : Int) :
    Except DataKitError (Bool × ReadState) :=
  if f > t then Except.error (badRangeError dsType url f t)
  else Except.ok (f == t, initReadState)

/-- The response object attached to an axios failure. -/
structure HttpResponse where
  status : Nat
  body : String
  respHeaders : List (String × String)
deriving DecidableEq

/-- A caught transport failure: its message, an optional errno, and an
optional HTTP response. -/
structure TransportFailure where
  message : String
  errno : Option String
  response : Option HttpResponse
deriving DecidableEq

/-- The catch block of queryGrafana: errno ECONNREFUSED gives
GrafanaUnavailable with no context fields; with a response present,
status 401 gives a plain Error mentioning the API key, status 502 gives
DatasourceUnavailable tagged with the datasource type and the query url;
every other failure gives a plain Error wrapping the original message. -/
def classifyError (e : TransportFailure) (dsType queryUrl pathname : String) :
    DataKitError :=
  if e.errno = some "ECONNREFUSED" then
    ⟨ErrKind.grafanaUnavailable, e.message, none, none⟩
  else
    match e.response with
    | some r =>
      if r.status = 401 then
        ⟨ErrKind.generic, "Unauthorized. Check the API_KEY. " ++ e.message,
         none, none⟩
      else if r.status = 502 then
        ⟨ErrKind.datasourceUnavailable,
         "datasource " ++ pathname ++ " unavailable, message: " ++ e.message,
         some dsType, some queryUrl⟩
      else
        ⟨ErrKind.generic, "Data kit: fail while request data: " ++ e.message,
         none, none⟩
    | none =>
      ⟨ErrKind.generic, "Data kit: fail while request data: " ++ e.message,
       none, none⟩

/-- Set one key of a flat header object: an existing entry keeps its place
and gets the new value, a missing key is appended at the end. -/
def setHeader : List (String × String) → String → String → List (String × String)
  | [], k, v => [(k, v)]
  | (k', v') :: rest, k, v =>
    if k' = k then (k', v) :: rest else (k', v') :: setHeader rest k v

/-- Lodash merge of two flat string-valued header objects: every entry of
the second argument is written into the first, later sources overriding
earlier values key by key. -/
def mergeHeaders (base : List (String × String)) :
    List (String × String) → List (String × String)
  | [] => base
  | (k, v) :: rest => mergeHeaders (setHeader base k v) rest

/-- Value of a header key, as reading the field of the header object. -/
def lookupHeader : List (String × String) → String → Option String
  | [], _ => none
  | (k', v') :: rest, k => if k' = k then some v' else lookupHeader rest k

/-- Header construction of queryGrafana: start from the bearer header
built from the API key, then merge the headers of the query on top when
they are present. -/
def requestHeaders (apiKey : String)
    (queryHeaders : Option (List (String × String))) : List (String × String) :=
  let headers := [("Authorization", "Bearer " ++ apiKey)]
  match queryHeaders with
  | none => headers
  | some qh => mergeHeaders headers qh

/-- Length of the run of leading slash characters of a path. -/
def leadSlashes (cs : List Char) : Nat :=
  (cs.takeWhile (fun c => c == '/')).length

/-- One backtracking attempt of the regex of getGrafanaUrl with the
leading star having consumed i slashes: the group takes the maximal run of
characters other than slash and the literal slash d slash must follow. -/
def panelAt (cs : List Char) (i : Nat) : Option (List Char) :=
  let rest := cs.drop i
  let run := rest.takeWhile (fun c => c != '/')
  if (rest.drop run.length).take 3 = ['/', 'd', '/'] then some run else none

/-- Backtracking of the leading star: try consuming i slashes, then fewer,
down to zero. -/
def panelTry (cs : List Char) : Nat → Option (List Char)
  | 0 => panelAt cs 0
  | i + 1 =>
    match panelAt cs (i + 1) with
    | some run => some run
    | none => panelTry cs i

/-- The match of the pathname against the anchored pattern of
getGrafanaUrl, returning the captured group: leftmost greedy, so the star
starts at the full run of leading slashes. -/
def panelMatch (path : String) : Option (List Char) :=
  panelTry path.toList (leadSlashes path.toList)

/-- getGrafanaUrl of the source. The parsed URL is modelled by its origin
and pathname, the raw url string being origin concatenated with pathname.
No match returns the input unchanged; a match with a non-empty group
returns origin, a slash and the group; a match with an empty group returns
the bare origin. -/
def getGrafanaUrl (origin pathname : String) : String :=
  match panelMatch pathname with
  | none => origin ++ pathname
  | some grafanaSubPath =>
    if grafanaSubPath.length > 0 then origin ++ "/" ++ String.mk grafanaSubPath
    else origin

/-- A full page: CHUNK_SIZE rows. -/
def fullChunk : TimeSeriesChunk :=
  ⟨["time", "value"], List.replicate CHUNK_SIZE (0, 0)⟩

/-- A short page of 37 rows. -/
def lastChunk : TimeSeriesChunk :=
  ⟨["time", "value"], List.replicate 37 (0, 0)⟩

/-- A tiny short page with distinctive columns and no rows. -/
def tinyChunk : TimeSeriesChunk := ⟨["a"], []⟩

/-- Backend stub returning pages of sizes CHUNK_SIZE, CHUNK_SIZE and 37 at
successive offsets 0, CHUNK_SIZE and 2 * CHUNK_SIZE. -/
def stubBackend : Nat → TimeSeriesChunk := fun off =>
  if off < 2 * CHUNK_SIZE then fullChunk else lastChunk

/-- Backend stub that always returns a full page. -/
def constFull : Nat → TimeSeriesChunk := fun _ => fullChunk

/-- Backend stub that always returns the tiny short page. -/
def constTiny : Nat → TimeSeriesChunk := fun _ => tinyChunk

/-- A transport failure with errno ECONNREFUSED and no response. -/
def connRefusedFailure : TransportFailure :=
  ⟨"connect ECONNREFUSED 127.0.0.1:3000", some "ECONNREFUSED", none⟩

/-- A transport failure carrying a 401 response. -/
def resp401Failure : TransportFailure :=
  ⟨"Request failed with status code 401", none, some ⟨401, "", []⟩⟩

/-- A transport failure carrying a 502 response. -/
def resp502Failure : TransportFailure :=
  ⟨"Request failed with status code 502", none, some ⟨502, "", []⟩⟩

/-- A transport failure carrying a 500 response. -/
def resp500Failure : TransportFailure :=
  ⟨"Request failed with status code 500", none, some ⟨500, "", []⟩⟩

/-
Helper lemmas about the paging loop.
-/

/-- Unfolding one iteration of the loop of queryByMetric when the fetched
page is short: the loop appends the page and stops. -/
theorem queryLoop_succ_short (backend : Nat → TimeSeriesChunk) (fuel : Nat)
    (st : LoopState)
    (h : (backend st.values.length).values.length < CHUNK_SIZE) :
    queryLoop backend (fuel + 1) st =
      (⟨st.values ++ (backend st.values.length).values,
        (backend st.values.length).columns, st.reqs + 1,
        st.offsets ++ [st.values.length]⟩, true) := by
  simp [queryLoop, h]

/-- Unfolding one iteration of the loop of queryByMetric when the fetched
page is full: the loop appends the page and continues. -/
theorem queryLoop_succ_cont (backend : Nat → TimeSeriesChunk) (fuel : Nat)
    (st : LoopState)
    (h : ¬ (backend st.values.length).values.length < CHUNK_SIZE) :
    queryLoop backend (fuel + 1) st =
      queryLoop backend fuel
        ⟨st.values ++ (backend st.values.length).values,
         (backend st.values.length).columns, st.reqs + 1,
         st.offsets ++ [st.values.length]⟩ := by
  simp [queryLoop, h]

/-- C5: for every range with the lower bound strictly above the upper
bound, both the aggregate entry point and the streaming entry point fail
with the BadRange typed error carrying the datasource type and the
supplied URL, before any transport request is issued: the aggregate
outcome records zero requests and is independent of the backend, and the
stream entry returns the error with the adapter never created, the fresh
adapter state itself carrying zero requests. -/
theorem badRange_before_transport (dsType url : String)
    (b1 b2 : Nat → TimeSeriesChunk) (f t : Int) (fuel : Nat) (h : f > t) :
    queryByMetric dsType url b1 f t fuel =
      { outcome := Except.error (badRangeError dsType url f t)
        requests := 0
        warned := false } ∧
    queryByMetric dsType url b1 f t fuel = queryByMetric dsType url b2 f t fuel ∧
    streamQuery dsType url f t = Except.error (badRangeError dsType url f t) ∧
    initReadState.requests = 0 := by
  refine ⟨?_, ?_, ?_, rfl⟩ <;> simp [queryByMetric, streamQuery, h]

/-- Witness for badRange_before_transport at a concrete reversed range. -/
theorem badRange_before_transport_witness :
    (2 : Int) > 1 ∧
    queryByMetric "influxdb" "https://host/d/ab" stubBackend 2 1 5 =
      { outcome := Except.error (badRangeError "influxdb" "https://host/d/ab" 2 1)
        requests := 0
        warned := false } ∧
    streamQuery "influxdb" "https://host/d/ab" 2 1 =
      Except.error (badRangeError "influxdb" "https://host/d/ab" 2 1) :=
  ⟨by decide,
   (badRange_before_transport "influxdb" "https://host/d/ab" stubBackend
      stubBackend 2 1 5 (by decide)).1,
   (badRange_before_transport "influxdb" "https://host/d/ab" stubBackend
      stubBackend 2 1 5 (by decide)).2.2.1⟩

/-- C6: for every range with equal bounds, the aggregate fetch raises no
error and proceeds into the paging loop with no special-cased skip, so
with a backend whose first page is short exactly one transport request is
issued; the only extra effect is the warning flag. -/
theorem equalRange_single_request (dsType url : String)
    (backend : Nat → TimeSeriesChunk) (f t : Int) (fuel : Nat)
    (hfuel : 1 ≤ fuel) (heq : f = t)
    (hshort : (backend 0).values.length < CHUNK_SIZE) :
    queryByMetric dsType url backend f t fuel =
      { outcome := Except.ok
          (⟨(backend 0).values, (backend 0).columns, 1, [0]⟩, true)
        requests := 1
        warned := true } := by
  subst heq
  have hng : ¬ f > f := lt_irrefl f
  obtain ⟨k, rfl⟩ : ∃ k, fuel = k + 1 := ⟨fuel - 1, by omega⟩
  have hstep := queryLoop_succ_short backend k initLoopState
    (by simpa [initLoopState] using hshort)
  simp [initLoopState] at hstep
  simp [queryByMetric, hng, hstep, initLoopState]

/-- Witness for equalRange_single_request at a concrete equal range with a
short first page. -/
theorem equalRange_single_request_witness :
    (1 ≤ 1 ∧ (5 : Int) = 5 ∧ (constTiny 0).values.length < CHUNK_SIZE) ∧
    queryByMetric "influxdb" "https://host" constTiny 5 5 1 =
      { outcome := Except.ok
          (⟨(constTiny 0).values, (constTiny 0).columns, 1, [0]⟩, true)
        requests := 1
        warned := true } :=
  ⟨⟨le_refl 1, rfl, by decide⟩,
   equalRange_single_request "influxdb" "https://host" constTiny 5 5 1
     (le_refl 1) rfl (by decide)⟩

/-- C4: for every transport failure the classifier raises exactly one
typed error determined by the failure, the errno check coming first as in
the source: errno ECONNREFUSED gives GrafanaUnavailable; otherwise a
response with status 401 gives a generic authentication error with no
datasource context; status 502 gives DatasourceUnavailable carrying the
datasource type and the query URL; every other failure, a response with
any other status or no response at all, gives a generic internal error
wrapping the original message. -/
theorem classifyError_cases (e : TransportFailure)
    (dsType queryUrl pathname : String) :
    (e.errno = some "ECONNREFUSED" →
      classifyError e dsType queryUrl pathname =
        ⟨ErrKind.grafanaUnavailable, e.message, none, none⟩) ∧
    (e.errno ≠ some "ECONNREFUSED" →
      ∀ r, e.response = some r →
        (r.status = 401 →
          classifyError e dsType queryUrl pathname =
            ⟨ErrKind.generic, "Unauthorized. Check the API_KEY. " ++ e.message,
             none, none⟩) ∧
        (r.status = 502 →
          classifyError e dsType queryUrl pathname =
            ⟨ErrKind.datasourceUnavailable,
             "datasource " ++ pathname ++ " unavailable, message: " ++ e.message,
             some dsType, some queryUrl⟩) ∧
        (r.status ≠ 401 → r.status ≠ 502 →
          classifyError e dsType queryUrl pathname =
            ⟨ErrKind.generic, "Data kit: fail while request data: " ++ e.message,
             none, none⟩)) ∧
    (e.errno ≠ some "ECONNREFUSED" → e.response = none →
      classifyError e dsType queryUrl pathname =
        ⟨ErrKind.generic, "Data kit: fail while request data: " ++ e.message,
         none, none⟩) := by
  refine ⟨fun h => by simp [classifyError, h],
          fun h r hr => ?_,
          fun h hr => by simp [classifyError, h, hr]⟩
  refine ⟨fun h401 => by simp [classifyError, h, hr, h401],
          fun h502 => by simp [classifyError, h, hr, h502],
          fun h401 h502 => by simp [classifyError, h, hr, h401, h502]⟩

/-- Witness for classifyError_cases: one concrete failure for each of the
four classes. -/
theorem classifyError_cases_witness :
    classifyError connRefusedFailure "influxdb" "https://host/api" "/api" =
      ⟨ErrKind.grafanaUnavailable, connRefusedFailure.message, none, none⟩ ∧
    classifyError resp401Failure "influxdb" "https://host/api" "/api" =
      ⟨ErrKind.generic,
       "Unauthorized. Check the API_KEY. " ++ resp401Failure.message,
       none, none⟩ ∧
    classifyError resp502Failure "influxdb" "https://host/api" "/api" =
      ⟨ErrKind.datasourceUnavailable,
       "datasource " ++ "/api" ++ " unavailable, message: " ++
         resp502Failure.message,
       some "influxdb", some "https://host/api"⟩ ∧
    classifyError resp500Failure "influxdb" "https://host/api" "/api" =
      ⟨ErrKind.generic,
       "Data kit: fail while request data: " ++ resp500Failure.message,
       none, none⟩ :=
  ⟨(classifyError_cases connRefusedFailure "influxdb" "https://host/api"
      "/api").1 rfl,
   ((classifyError_cases resp401Failure "influxdb" "https://host/api"
      "/api").2.1 (by decide) ⟨401, "", []⟩ rfl).1 rfl,
   ((classifyError_cases resp502Failure "influxdb" "https://host/api"
      "/api").2.1 (by decide) ⟨502, "", []⟩ rfl).2.1 rfl,
   ((classifyError_cases resp500Failure "influxdb" "https://host/api"
      "/api").2.1 (by decide) ⟨500, "", []⟩ rfl).2.2 (by decide) (by decide)⟩

/-- C10: a connection-refused failure yields a GrafanaUnavailable error
carrying only the message of the transport failure, its datasourceType
and datasourceUrl fields left unset, unlike the 502 case, whose
DatasourceUnavailable error carries both. -/
theorem grafanaUnavailable_context_unset (dsType queryUrl pathname : String) :
    (∀ e : TransportFailure, e.errno = some "ECONNREFUSED" →
      (classifyError e dsType queryUrl pathname).kind =
        ErrKind.grafanaUnavailable ∧
      (classifyError e dsType queryUrl pathname).message = e.message ∧
      (classifyError e dsType queryUrl pathname).datasourceType = none ∧
      (classifyError e dsType queryUrl pathname).datasourceUrl = none) ∧
    (∀ (e : TransportFailure) (r : HttpResponse),
      e.errno ≠ some "ECONNREFUSED" → e.response = some r → r.status = 502 →
      (classifyError e dsType queryUrl pathname).datasourceType = some dsType ∧
      (classifyError e dsType queryUrl pathname).datasourceUrl = some queryUrl) := by
  constructor
  · intro e h
    simp [classifyError, h]
  · intro e r h hr h502
    simp [classifyError, h, hr, h502]

/-- Witness for grafanaUnavailable_context_unset at concrete failures. -/
theorem grafanaUnavailable_context_unset_witness :
    (classifyError connRefusedFailure "graphite" "https://g/api" "/api").datasourceType =
      none ∧
    (classifyError connRefusedFailure "graphite" "https://g/api" "/api").datasourceUrl =
      none ∧
    (classifyError resp502Failure "graphite" "https://g/api" "/api").datasourceType =
      some "graphite" ∧
    (classifyError resp502Failure "graphite" "https://g/api" "/api").datasourceUrl =
      some "https://g/api" :=
  ⟨((grafanaUnavailable_context_unset "graphite" "https://g/api" "/api").1
      connRefusedFailure rfl).2.2.1,
   ((grafanaUnavailable_context_unset "graphite" "https://g/api" "/api").1
      connRefusedFailure rfl).2.2.2,
   ((grafanaUnavailable_context_unset "graphite" "https://g/api" "/api").2
      resp502Failure ⟨502, "", []⟩ (by decide) rfl rfl).1,
   ((grafanaUnavailable_context_unset "graphite" "https://g/api" "/api").2
      resp502Failure ⟨502, "", []⟩ (by decide) rfl rfl).2⟩

/-- C1 divergence at the failing input: against a backend whose page at
offset 0 is full, the streaming generator requests every page at offset 0
because returnedValuesLength is never reassigned in the source, so it
yields the first page over and over and never terminates, whatever the
fuel; and every points delivery of the read closure from the fresh adapter
pushes only undefined values, because the Array.concat result is
discarded and the point buffer stays empty. The aggregate path over the
same backend advances its offset by the accumulated row count, as proved
about queryLoop separately, so the two paths do not yield the same rows. -/
theorem streamLoop_offsets_stuck (backend : Nat → TimeSeriesChunk)
    (hfull : (backend 0).values.length = CHUNK_SIZE) :
    (∀ fuel,
      (streamLoop backend 0 fuel).1 = List.replicate fuel (backend 0) ∧
      (streamLoop backend 0 fuel).2.1 = List.replicate fuel 0 ∧
      (streamLoop backend 0 fuel).2.2 = false) ∧
    (∀ (size : Nat) (st' : ReadState) (out : List (Option TimeSeriesPoint)),
      readStep backend size initReadState = some (st', out) →
      ∀ o ∈ out, o = none) := by
  constructor
  · intro fuel
    induction fuel with
    | zero => simp [streamLoop]
    | succ n ih =>
      simp [streamLoop, hfull, List.replicate_succ, ih.1, ih.2.1, ih.2.2]
  · intro size st' out h o ho
    simp only [readStep, initReadState, producerNext, deliver] at h
    split at h <;>
    · simp only [Option.some.injEq, Prod.mk.injEq] at h
      rcases h with ⟨_, hout⟩
      subst hout
      simp only [List.mem_map, List.mem_range] at ho
      rcases ho with ⟨i, _, rfl⟩
      exact List.get?_nil

/-- Witness for streamLoop_offsets_stuck against the constant full
backend, at fuel 2 and a pull of size 1. -/
theorem streamLoop_offsets_stuck_witness :
    (constFull 0).values.length = CHUNK_SIZE ∧
    (streamLoop constFull 0 2).2.1 = List.replicate 2 0 ∧
    (streamLoop constFull 0 2).2.2 = false :=
  have h : (constFull 0).values.length = CHUNK_SIZE := by
    simp [constFull, fullChunk]
  ⟨h, ((streamLoop_offsets_stuck constFull h).1 2).2.1,
      ((streamLoop_offsets_stuck constFull h).1 2).2.2⟩

/-- C9: for every aggregate paging run the columns field of the final
state equals the column layout of the page fetched at the last requested
offset: each iteration overwrites the accumulated columns with the
columns of the current page. -/
theorem queryLoop_columns_last (backend : Nat → TimeSeriesChunk) :
    ∀ (fuel : Nat) (st : LoopState) (off : Nat), 0 < fuel →
      ((queryLoop backend fuel st).1.offsets).getLast? = some off →
      (queryLoop backend fuel st).1.columns = (backend off).columns := by
  intro fuel
  induction fuel with
  | zero => intro st off h; exact absurd h (lt_irrefl 0)
  | succ n ih =>
    intro st off _ hlast
    by_cases hshort : (backend st.values.length).values.length < CHUNK_SIZE
    · rw [queryLoop_succ_short backend n st hshort] at hlast ⊢
      simp only [List.getLast?_concat, Option.some.injEq] at hlast
      subst hlast
      rfl
    · rw [queryLoop_succ_cont backend n st hshort] at hlast ⊢
      rcases Nat.eq_zero_or_pos n with hn | hn
      · subst hn
        simp only [queryLoop, List.getLast?_concat, Option.some.injEq] at hlast
        subst hlast
        rfl
      · exact ih _ off hn hlast

/-- Witness for queryLoop_columns_last: a single short page run against
the tiny backend, whose one request is made at offset 0. -/
theorem queryLoop_columns_last_witness :
    (0 < 1 ∧
      ((queryLoop constTiny 1 initLoopState).1.offsets).getLast? = some 0) ∧
    (queryLoop constTiny 1 initLoopState).1.columns = (constTiny 0).columns :=
  ⟨⟨Nat.zero_lt_one, by decide⟩,
   queryLoop_columns_last constTiny 1 initLoopState 0 Nat.zero_lt_one (by decide)⟩

/-- One read call leaves the buffer a suffix of what it was: the refill
leaves currentChunk unchanged because the Array.concat result is
discarded, and the delivery drops size points from the front; and the
generator is resumed only when the buffered count is below the demand. -/
theorem readStep_facts (backend : Nat → TimeSeriesChunk) (size : Nat)
    (st st' : ReadState) (out : List (Option TimeSeriesPoint))
    (h : readStep backend size st = some (st', out)) :
    st'.currentChunk = st.currentChunk.drop size ∧
    (st.requests < st'.requests → st.currentChunk.length < size) := by
  unfold readStep at h
  by_cases hlt : st.currentChunk.length < size
  · rw [if_pos hlt] at h
    rcases hp : producerNext backend st.prod with _ | ⟨chunk, prod'⟩ <;>
      rw [hp] at h
    · cases h
    · simp only [deliver, Option.some.injEq, Prod.mk.injEq] at h
      rcases h with ⟨h1, -⟩
      subst h1
      exact ⟨rfl, fun _ => hlt⟩
  · rw [if_neg hlt] at h
    simp only [deliver, Option.some.injEq, Prod.mk.injEq] at h
    rcases h with ⟨h1, -⟩
    subst h1
    exact ⟨rfl, fun hc => absurd hc (lt_irrefl st.requests)⟩

/-- Along any run of read calls an empty buffer stays empty. -/
theorem readRun_chunk_nil (backend : Nat → TimeSeriesChunk) :
    ∀ (sizes : List Nat) (st st' : ReadState), st.currentChunk = [] →
      readRun backend sizes st = some st' → st'.currentChunk = [] := by
  intro sizes
  induction sizes with
  | nil =>
    intro st st' hnil h
    simp only [readRun, Option.some.injEq] at h
    rw [← h]
    exact hnil
  | cons size rest ih =>
    intro st st' hnil h
    simp only [readRun] at h
    rcases hs : readStep backend size st with _ | ⟨st1, out⟩ <;> rw [hs] at h
    · cases h
    · have h1 : st1.currentChunk = [] := by
        rw [(readStep_facts backend size st st1 out hs).1, hnil]
        exact List.drop_nil
      exact ih st1 st' h1 h

/-- C3: along every sequence of pulls from a fresh stream, the point
buffer of the adapter holds at most one page of unconsumed points at rest
between pulls, and a pull resumes the producer only when its demand
exceeds the buffered count. -/
theorem readRun_buffer_bound (backend : Nat → TimeSeriesChunk)
    (sizes : List Nat) (st' : ReadState)
    (h : readRun backend sizes initReadState = some st') :
    st'.currentChunk.length ≤ CHUNK_SIZE ∧
    (∀ (size : Nat) (st1 st2 : ReadState)
       (out : List (Option TimeSeriesPoint)),
      readStep backend size st1 = some (st2, out) →
      st1.requests < st2.requests → st1.currentChunk.length < size) := by
  constructor
  · have hnil := readRun_chunk_nil backend sizes initReadState st' rfl h
    simp [hnil]
  · intro size st1 st2 out hstep
    exact (readStep_facts backend size st1 st2 out hstep).2

/-- Witness for readRun_buffer_bound: one pull of size 1 against the tiny
backend. -/
theorem readRun_buffer_bound_witness :
    readRun constTiny [1] initReadState =
      some ⟨[], ProdState.finished, 1⟩ ∧
    (⟨[], ProdState.finished, 1⟩ : ReadState).currentChunk.length ≤ CHUNK_SIZE :=
  ⟨by decide,
   (readRun_buffer_bound constTiny [1] ⟨[], ProdState.finished, 1⟩ (by decide)).1⟩

/-- C2: against every backend returning pages of sizes CHUNK_SIZE,
CHUNK_SIZE and 37 at successive offsets, the aggregate fetch requests each
next page at an offset equal to the total rows accumulated so far,
terminates exactly on the short third page, and returns the concatenation
of the three pages in arrival order after exactly 3 transport requests. -/
theorem queryByMetric_three_pages (dsType url : String)
    (backend : Nat → TimeSeriesChunk) (p1 p2 p3 : TimeSeriesChunk)
    (f t : Int) (fuel : Nat)
    (hft : f ≤ t) (hfuel : 3 ≤ fuel)
    (hb0 : backend 0 = p1) (hb1 : backend CHUNK_SIZE = p2)
    (hb2 : backend (2 * CHUNK_SIZE) = p3)
    (h1 : p1.values.length = CHUNK_SIZE) (h2 : p2.values.length = CHUNK_SIZE)
    (h3 : p3.values.length = 37) :
    queryByMetric dsType url backend f t fuel =
      { outcome := Except.ok
          (⟨(p1.values ++ p2.values) ++ p3.values, p3.columns, 3,
            [0, CHUNK_SIZE, 2 * CHUNK_SIZE]⟩, true)
        requests := 3
        warned := f == t } ∧
    ((p1.values ++ p2.values) ++ p3.values).length = 2 * CHUNK_SIZE + 37 := by
  have hng : ¬ f > t := not_lt.mpr hft
  obtain ⟨k, rfl⟩ : ∃ k, fuel = k + 3 := ⟨fuel - 3, by omega⟩
  have hlen2 : (p1.values ++ p2.values).length = 2 * CHUNK_SIZE := by
    simp [h1, h2]
    omega
  have e1 : queryLoop backend (k + 3) initLoopState =
      queryLoop backend (k + 2) ⟨p1.values, p1.columns, 1, [0]⟩ := by
    have h := queryLoop_succ_cont backend (k + 2) initLoopState
      (by simp [initLoopState, hb0, h1])
    simp only [initLoopState, List.nil_append, List.length_nil, hb0] at h
    exact h
  have e2 : queryLoop backend (k + 2) ⟨p1.values, p1.columns, 1, [0]⟩ =
      queryLoop backend (k + 1)
        ⟨p1.values ++ p2.values, p2.columns, 2, [0, CHUNK_SIZE]⟩ := by
    have h := queryLoop_succ_cont backend (k + 1)
      ⟨p1.values, p1.columns, 1, [0]⟩ (by simp [h1, hb1, h2])
    simp only [h1, hb1, List.cons_append, List.nil_append] at h
    exact h
  have e3 : queryLoop backend (k + 1)
      ⟨p1.values ++ p2.values, p2.columns, 2, [0, CHUNK_SIZE]⟩ =
      ((⟨(p1.values ++ p2.values) ++ p3.values, p3.columns, 3,
         [0, CHUNK_SIZE, 2 * CHUNK_SIZE]⟩ : LoopState), true) := by
    have h := queryLoop_succ_short backend k
      ⟨p1.values ++ p2.values, p2.columns, 2, [0, CHUNK_SIZE]⟩
      (by show (backend ((p1.values ++ p2.values).length)).values.length <
            CHUNK_SIZE
          rw [hlen2, hb2, h3]; decide)
    simp only [hlen2, hb2, List.cons_append, List.nil_append] at h
    exact h
  have eAll := (e1.trans e2).trans e3
  refine ⟨?_, ?_⟩
  · simp [queryByMetric, hng, eAll]
  · simp [h1, h2, h3]
    omega

/-- Witness for queryByMetric_three_pages against the concrete three page
stub backend. -/
theorem queryByMetric_three_pages_witness :
    ((0 : Int) ≤ 1 ∧ 3 ≤ 3 ∧
     stubBackend 0 = fullChunk ∧ stubBackend CHUNK_SIZE = fullChunk ∧
     stubBackend (2 * CHUNK_SIZE) = lastChunk ∧
     fullChunk.values.length = CHUNK_SIZE ∧ lastChunk.values.length = 37) ∧
    (queryByMetric "influxdb" "https://host" stubBackend 0 1 3 =
      { outcome := Except.ok
          (⟨(fullChunk.values ++ fullChunk.values) ++ lastChunk.values,
            lastChunk.columns, 3, [0, CHUNK_SIZE, 2 * CHUNK_SIZE]⟩, true)
        requests := 3
        warned := (0 : Int) == 1 } ∧
     ((fullChunk.values ++ fullChunk.values) ++ lastChunk.values).length =
       2 * CHUNK_SIZE + 37) :=
  ⟨⟨by decide, le_refl 3, by norm_num [stubBackend, CHUNK_SIZE],
    by norm_num [stubBackend, CHUNK_SIZE], by norm_num [stubBackend, CHUNK_SIZE],
    by simp [fullChunk], by simp [lastChunk]⟩,
   queryByMetric_three_pages "influxdb" "https://host" stubBackend fullChunk
     fullChunk lastChunk 0 1 3 (by decide) (le_refl 3)
     (by norm_num [stubBackend, CHUNK_SIZE]) (by norm_num [stubBackend, CHUNK_SIZE])
     (by norm_num [stubBackend, CHUNK_SIZE]) (by simp [fullChunk])
     (by simp [fullChunk]) (by simp [lastChunk])⟩

/-- Setting one key changes the value looked up at that key and no
other. -/
theorem lookupHeader_setHeader (hs : List (String × String)) (k2 v k : String) :
    lookupHeader (setHeader hs k2 v) k =
      if k = k2 then some v else lookupHeader hs k := by
  induction hs with
  | nil =>
    simp only [setHeader, lookupHeader]
    by_cases h : k = k2
    · simp [h]
    · simp [h, Ne.symm h]
  | cons p rest ih =>
    obtain ⟨k', v'⟩ := p
    simp only [setHeader]
    by_cases h1 : k' = k2
    · subst h1
      by_cases h2 : k = k'
      · subst h2
        simp [lookupHeader]
      · simp [lookupHeader, h2, Ne.symm h2]
    · simp only [if_neg h1, lookupHeader, ih]
      by_cases h2 : k' = k <;> by_cases h3 : k = k2
      · exact absurd (h2.trans h3) h1
      · simp [h1, h2, h3]
      · simp [h1, h2, h3]
      · simp [h1, h2, h3]

/-- A key present before the lodash merge is still present after it. -/
theorem lookupHeader_mergeHeaders_isSome (k : String) :
    ∀ (qh base : List (String × String)),
      (lookupHeader base k).isSome = true →
      (lookupHeader (mergeHeaders base qh) k).isSome = true := by
  intro qh
  induction qh with
  | nil =>
    intro base h
    simpa [mergeHeaders] using h
  | cons p rest ih =>
    intro base h
    obtain ⟨k2, v⟩ := p
    simp only [mergeHeaders]
    apply ih
    rw [lookupHeader_setHeader]
    by_cases hk : k = k2 <;> simp [hk, h]

/-- The lodash merge leaves a key untouched when the merged object does
not mention it. -/
theorem lookupHeader_mergeHeaders_absent (k : String) :
    ∀ (qh base : List (String × String)),
      (∀ p ∈ qh, p.1 ≠ k) →
      lookupHeader (mergeHeaders base qh) k = lookupHeader base k := by
  intro qh
  induction qh with
  | nil => intro base _; rfl
  | cons p rest ih =>
    intro base hall
    obtain ⟨k2, v⟩ := p
    simp only [mergeHeaders]
    rw [ih (setHeader base k2 v)
          (fun q hq => hall q (List.mem_cons_of_mem _ hq)),
        lookupHeader_setHeader]
    have hne : k2 ≠ k := hall (k2, v) (List.mem_cons_self _ _)
    simp [Ne.symm hne]

/-- C8 counterexample: a query builder header set containing its own
Authorization entry overrides the bearer credential, so the header the
request sends is not the bearer derived from the API key. -/
theorem requestHeaders_override_counterexample :
    lookupHeader (requestHeaders "k" (some [("Authorization", "token evil")]))
        "Authorization" = some "token evil" ∧
    some "token evil" ≠ some ("Bearer " ++ "k") := by
  constructor
  · decide
  · decide

/-- C8 amended: every request carries an Authorization header; it equals
the bearer derived from the API key whenever the query builder headers do
not themselves contain an Authorization entry, and also when they are
absent; a caller-supplied Authorization entry overrides the value while
the header stays present. -/
theorem requestHeaders_amended (apiKey : String) :
    (∀ qh : List (String × String),
      (lookupHeader (requestHeaders apiKey (some qh))
        "Authorization").isSome = true) ∧
    (∀ qh : List (String × String),
      (∀ p ∈ qh, p.1 ≠ "Authorization") →
      lookupHeader (requestHeaders apiKey (some qh)) "Authorization" =
        some ("Bearer " ++ apiKey)) ∧
    lookupHeader (requestHeaders apiKey none) "Authorization" =
      some ("Bearer " ++ apiKey) := by
  refine ⟨fun qh => ?_, fun qh hq => ?_, ?_⟩
  · apply lookupHeader_mergeHeaders_isSome
    simp [lookupHeader]
  · show lookupHeader
        (mergeHeaders [("Authorization", "Bearer " ++ apiKey)] qh)
        "Authorization" = some ("Bearer " ++ apiKey)
    rw [lookupHeader_mergeHeaders_absent _ qh _ hq]
    simp [lookupHeader]
  · simp [requestHeaders, lookupHeader]

/-- Witness for requestHeaders_amended with a concrete non-Authorization
query header. -/
theorem requestHeaders_amended_witness :
    lookupHeader (requestHeaders "k" (some [("X-Org", "1")])) "Authorization" =
      some ("Bearer " ++ "k") :=
  (requestHeaders_amended "k").2.1 [("X-Org", "1")] (by decide)

/-- A leading slash adds one to the run of leading slashes. -/
theorem leadSlashes_cons_slash (cs : List Char) :
    leadSlashes ('/' :: cs) = leadSlashes cs + 1 := by
  simp [leadSlashes]

/-- A list headed by a character other than slash has no leading
slashes. -/
theorem leadSlashes_cons_other (c : Char) (cs : List Char) (hc : ¬ c = '/') :
    leadSlashes (c :: cs) = 0 := by
  simp [leadSlashes, List.takeWhile_cons, hc]

/-- Up to the count of leading slashes, taking is taking slashes. -/
theorem take_leadSlashes_replicate :
    ∀ (i : Nat) (cs : List Char), i ≤ leadSlashes cs →
      cs.take i = List.replicate i '/' := by
  intro i
  induction i with
  | zero => intro cs _; rfl
  | succ j ih =>
    intro cs h
    cases cs with
    | nil =>
      exfalso
      simp [leadSlashes] at h
    | cons c cs' =>
      by_cases hc : c = '/'
      · subst hc
        rw [leadSlashes_cons_slash] at h
        rw [List.take_succ_cons, List.replicate_succ, ih cs' (by omega)]
      · rw [leadSlashes_cons_other c cs' hc] at h
        omega

/-- A list starting with i slashes has at least i leading slashes. -/
theorem leadSlashes_replicate_ge (i : Nat) (t : List Char) :
    i ≤ leadSlashes (List.replicate i '/' ++ t) := by
  induction i with
  | zero => exact Nat.zero_le _
  | succ j ih =>
    rw [List.replicate_succ, List.cons_append, leadSlashes_cons_slash]
    omega

/-- The group of the regex takes exactly a slash-free run followed by a
slash. -/
theorem takeWhile_nonSlash_run (seg rest : List Char)
    (hseg : ∀ c ∈ seg, c ≠ '/') :
    (seg ++ '/' :: rest).takeWhile (fun c => c != '/') = seg := by
  have h1 : ∀ a ∈ seg, (fun c => c != '/') a = true := fun a ha => by
    simpa using hseg a ha
  rw [List.takeWhile_append_of_pos h1,
      List.takeWhile_cons_of_neg (by simp), List.append_nil]

/-- A decomposition of the dropped suffix as a slash-free group followed
by the literal makes the attempt succeed with that group. -/
theorem panelAt_of_decomp (cs : List Char) (i : Nat) (seg rest : List Char)
    (hseg : ∀ c ∈ seg, c ≠ '/')
    (hdrop : cs.drop i = seg ++ '/' :: 'd' :: '/' :: rest) :
    panelAt cs i = some seg := by
  simp only [panelAt, hdrop]
  rw [takeWhile_nonSlash_run seg ('d' :: '/' :: rest) hseg, List.drop_left]
  simp

/-- A successful attempt decomposes the dropped suffix as its slash-free
group followed by the literal. -/
theorem panelAt_decomp (cs : List Char) (i : Nat) (run : List Char)
    (h : panelAt cs i = some run) :
    (∀ c ∈ run, c ≠ '/') ∧
    ∃ rest, cs.drop i = run ++ '/' :: 'd' :: '/' :: rest := by
  simp only [panelAt] at h
  by_cases hcond :
      ((cs.drop i).drop
          ((cs.drop i).takeWhile (fun c => c != '/')).length).take 3 =
        ['/', 'd', '/']
  · rw [if_pos hcond, Option.some.injEq] at h
    subst h
    constructor
    · intro c hc
      have hb := List.mem_takeWhile_imp hc
      simpa using hb
    · obtain ⟨t, ht⟩ :=
        List.takeWhile_prefix (l := cs.drop i) (fun c => c != '/')
      have hdrop :
          (cs.drop i).drop
            ((cs.drop i).takeWhile (fun c => c != '/')).length = t := by
        have h2 := List.drop_left ((cs.drop i).takeWhile (fun c => c != '/')) t
        rwa [ht] at h2
      rw [hdrop] at hcond
      refine ⟨t.drop 3, ?_⟩
      have ht3 : t = '/' :: 'd' :: '/' :: t.drop 3 := by
        conv_lhs => rw [← List.take_append_drop 3 t, hcond]
        rfl
      rw [← ht3]
      exact ht.symm
  · rw [if_neg hcond] at h
    cases h

/-- When every attempt fails, the backtracking search fails. -/
theorem panelTry_eq_none (cs : List Char) :
    ∀ L : Nat, (∀ i, i ≤ L → panelAt cs i = none) → panelTry cs L = none := by
  intro L
  induction L with
  | zero =>
    intro h
    simpa [panelTry] using h 0 (le_refl 0)
  | succ j ih =>
    intro h
    have h1 := h (j + 1) (le_refl _)
    simp only [panelTry, h1]
    exact ih fun i hi => h i (Nat.le_succ_of_le hi)

/-- When some attempt within the budget succeeds, the backtracking search
does not fail. -/
theorem panelTry_isSome (cs : List Char) :
    ∀ (L i : Nat) (run : List Char), i ≤ L → panelAt cs i = some run →
      panelTry cs L ≠ none := by
  intro L
  induction L with
  | zero =>
    intro i run hi h
    have h0 : i = 0 := Nat.le_zero.mp hi
    subst h0
    simp [panelTry, h]
  | succ j ih =>
    intro i run hi h
    cases hp : panelAt cs (j + 1) with
    | some r => simp [panelTry, hp]
    | none =>
      have hij : i ≤ j := by
        by_cases he : i = j + 1
        · rw [he] at h
          rw [h] at hp
          simp at hp
        · omega
      simp only [panelTry, hp]
      exact ih i run hij h

/-- Without any decomposition of the pathname into leading slashes, a
slash-free group and the literal, the regex does not match. -/
theorem panelMatch_of_no_decomp (path : String)
    (h : ¬ ∃ (i : Nat) (seg rest : List Char),
        path.toList =
          List.replicate i '/' ++ (seg ++ '/' :: 'd' :: '/' :: rest) ∧
        ∀ c ∈ seg, c ≠ '/') :
    panelMatch path = none := by
  unfold panelMatch
  apply panelTry_eq_none
  intro i hi
  cases hp : panelAt path.toList i with
  | none => rfl
  | some run =>
    exfalso
    obtain ⟨hrun, rest, hdecomp⟩ := panelAt_decomp path.toList i run hp
    apply h
    refine ⟨i, run, rest, ?_, hrun⟩
    conv_lhs => rw [← List.take_append_drop i path.toList]
    rw [take_leadSlashes_replicate i path.toList hi, hdecomp]

/-- With a decomposition of the pathname into leading slashes, a
slash-free group and the literal, the regex matches. -/
theorem panelMatch_of_decomp (path : String) (i : Nat) (seg rest : List Char)
    (hseg : ∀ c ∈ seg, c ≠ '/')
    (hpath : path.toList =
      List.replicate i '/' ++ (seg ++ '/' :: 'd' :: '/' :: rest)) :
    panelMatch path ≠ none := by
  have hd : path.toList.drop i = seg ++ '/' :: 'd' :: '/' :: rest := by
    rw [hpath]
    have h2 := List.drop_left (List.replicate i '/')
      (seg ++ '/' :: 'd' :: '/' :: rest)
    rwa [List.length_replicate] at h2
  have hAt : panelAt path.toList i = some seg :=
    panelAt_of_decomp path.toList i seg rest hseg hd
  have hle : i ≤ leadSlashes path.toList := by
    rw [hpath]
    exact leadSlashes_replicate_ge i _
  unfold panelMatch
  exact panelTry_isSome path.toList (leadSlashes path.toList) i seg hle hAt

/-- The empty-group case: a pathname of the literal followed by a rest
that does not immediately restart the pattern matches with the empty
group. -/
theorem panelTry_slash_d (rest : List Char) (hrest : rest.take 2 ≠ ['d', '/']) :
    panelTry ('/' :: 'd' :: '/' :: rest) 1 = some [] := by
  have hrun : ('d' :: '/' :: rest).takeWhile (fun c => c != '/') = ['d'] := by
    rw [List.takeWhile_cons_of_pos (by decide),
        List.takeWhile_cons_of_neg (by decide)]
  have h1 : panelAt ('/' :: 'd' :: '/' :: rest) 1 = none := by
    simp only [panelAt]
    rw [show ('/' :: 'd' :: '/' :: rest).drop 1 = 'd' :: '/' :: rest from rfl,
        hrun,
        show ('d' :: '/' :: rest).drop (['d'].length) = '/' :: rest from rfl,
        show ('/' :: rest).take 3 = '/' :: rest.take 2 from rfl]
    have hne : ¬ ('/' :: rest.take 2 = ['/', 'd', '/']) := by
      intro hcon
      apply hrest
      simpa using hcon
    rw [if_neg hne]
  simp only [panelTry, h1]
  show panelAt ('/' :: 'd' :: '/' :: rest) 0 = some []
  exact panelAt_of_decomp _ 0 [] rest (by simp) rfl

/-- C7: endpoint derivation. A pathname of one slash, a non-empty
slash-free segment and the literal derives origin, slash and the segment;
a pathname of the literal with an empty segment derives the bare origin;
a pathname admitting no decomposition into leading slashes, a slash-free
segment and the literal is returned unchanged, the raw url being origin
concatenated with pathname. -/
theorem getGrafanaUrl_cases (origin : String) :
    (∀ (path : String) (seg rest : List Char),
      path.toList = '/' :: (seg ++ '/' :: 'd' :: '/' :: rest) →
      seg ≠ [] → (∀ c ∈ seg, c ≠ '/') →
      getGrafanaUrl origin path = origin ++ "/" ++ String.mk seg) ∧
    (∀ (path : String) (rest : List Char),
      path.toList = '/' :: 'd' :: '/' :: rest →
      rest.take 2 ≠ ['d', '/'] →
      getGrafanaUrl origin path = origin) ∧
    (∀ path : String,
      (¬ ∃ (i : Nat) (seg rest : List Char),
        path.toList =
          List.replicate i '/' ++ (seg ++ '/' :: 'd' :: '/' :: rest) ∧
        ∀ c ∈ seg, c ≠ '/') →
      getGrafanaUrl origin path = origin ++ path) := by
  refine ⟨?_, ?_, ?_⟩
  · intro path seg rest hpath hne hseg
    obtain ⟨a, as, rfl⟩ : ∃ a as, seg = a :: as := by
      cases seg with
      | nil => exact absurd rfl hne
      | cons a as => exact ⟨a, as, rfl⟩
    have ha : a ≠ '/' := hseg a (List.mem_cons_self a as)
    have hl : leadSlashes path.toList = 1 := by
      rw [hpath, leadSlashes_cons_slash, List.cons_append,
          leadSlashes_cons_other a _ ha]
    have hAt : panelAt path.toList 1 = some (a :: as) :=
      panelAt_of_decomp path.toList 1 (a :: as) rest hseg
        (by rw [hpath]; rfl)
    have hm : panelMatch path = some (a :: as) := by
      unfold panelMatch
      rw [hl]
      simp only [panelTry, hAt]
    simp [getGrafanaUrl, hm]
  · intro path rest hpath hrest
    have hl : leadSlashes path.toList = 1 := by
      rw [hpath, leadSlashes_cons_slash,
          leadSlashes_cons_other 'd' _ (by decide)]
    have hm : panelMatch path = some [] := by
      unfold panelMatch
      rw [hl, hpath]
      exact panelTry_slash_d rest hrest
    simp [getGrafanaUrl, hm]
  · intro path h
    simp [getGrafanaUrl, panelMatch_of_no_decomp path h]

/-- Witness for getGrafanaUrl_cases at the three example urls. -/
theorem getGrafanaUrl_cases_witness :
    getGrafanaUrl "https://host" "/org1/d/abc" =
      "https://host" ++ "/" ++ String.mk "org1".toList ∧
    getGrafanaUrl "https://host" "/d/abc" = "https://host" ∧
    getGrafanaUrl "https://host" "/other/path" =
      "https://host" ++ "/other/path" := by
  refine ⟨?_, ?_, ?_⟩
  · exact (getGrafanaUrl_cases "https://host").1 "/org1/d/abc" "org1".toList
      "abc".toList (by decide) (by decide) (by decide)
  · exact (getGrafanaUrl_cases "https://host").2.1 "/d/abc" "abc".toList
      (by decide) (by decide)
  · refine (getGrafanaUrl_cases "https://host").2.2 "/other/path" ?_
    rintro ⟨i, seg, rest, hpath, hseg⟩
    exact panelMatch_of_decomp "/other/path" i seg rest hseg hpath (by decide)

end GrafanaKit
